import Mathlib

/-!
Verification development for the startup-option subsystem of the bazel
client (file `src/main/cpp/startup_options.cc`).  The C++ class
`blaze::StartupOptions` is embedded shallowly: the option store becomes a
Lean structure, the in-place mutations of `ProcessArg` become explicit
state passing, external collaborators (`MakeAbsolute`, `GetOutputRoot`,
`GetUserName`, `access`, `WriteFile`) become function parameters, and the
process-terminating paths of `GetJvm` become an explicit result
constructor carrying the exit status.
-/

set_option maxHeartbeats 4000000
set_option linter.unusedVariables false

namespace blaze

/-- Exit classification used by the parser, from `blaze_exit_code`. -/
inductive ExitCode where
  | SUCCESS
  | BAD_ARGV
deriving DecidableEq, Repr

/-- The option store: one field per member of the C++ class
`StartupOptions` that the embedded functions touch, plus the provenance
map `option_sources`.  `invocation_policy` is a `const char*` that may be
`NULL`, hence `Option String`.  The provenance map `std::map<string,
string>` is represented as an association list with overwrite-on-repeat
update (`mapSet`) and key lookup (`mapGet`); only lookups are observable. -/
structure StartupOptions where
  product_name : String
  output_root : String
  output_user_root : String
  output_base : String
  install_base : String
  deep_execroot : Bool
  block_for_lock : Bool
  host_jvm_debug : Bool
  host_jvm_profile : String
  host_javabase : String
  host_jvm_args : List String
  batch : Bool
  batch_cpu_scheduling : Bool
  allow_configurable_attributes : Bool
  fatal_event_bus_exceptions : Bool
  io_nice_level : Int
  max_idle_secs : Int
  oom_more_eagerly_threshold : Int
  command_port : Int
  oom_more_eagerly : Bool
  watchfs : Bool
  invocation_policy : Option String
  option_sources : List (String × String)
deriving DecidableEq, Repr

/-- Update of the `std::map` provenance store: `m[k] = v` overwrites an
existing binding for `k` and otherwise inserts one. -/
def mapSet (m : List (String × String)) (k v : String) : List (String × String) :=
  match m with
  | [] => [(k, v)]
  | (k₀, v₀) :: rest => if k₀ = k then (k, v) :: rest else (k₀, v₀) :: mapSet rest k v

/-- Lookup in the provenance store; `none` means the option was never
explicitly assigned. -/
def mapGet (m : List (String × String)) (k : String) : Option String :=
  match m with
  | [] => none
  | (k₀, v₀) :: rest => if k₀ = k then some v₀ else mapGet rest k

/-- Character-list test that the second list is a leading segment of the
first, matching on the pattern first so that it reduces even when the
tail of the subject is not known. -/
def listIsPref : List Char → List Char → Bool
  | [], _ => true
  | a :: as, l =>
      match l with
      | [] => false
      | b :: bs => a == b && listIsPref as bs

/-- Boolean test that `s` starts with `p`, on the character lists. -/
def strStartsWith (s p : String) : Bool :=
  listIsPref p.data s.data

/-- Drop the first `n` characters of a string. -/
def strDropLen (s : String) (n : Nat) : String :=
  String.mk (s.data.drop n)

/-- Modelled from the spec: `blaze_util::JoinPath` (not under `src/`),
"joinPath(base, suffix) -> path". -/
def JoinPath (a b : String) : String := a ++ "/" ++ b

/-- Auxiliary decimal accumulator for `safe_strto32`. -/
def decDigitsAux : List Char → Nat → Option Nat
  | [], acc => some acc
  | c :: cs, acc =>
      if c.isDigit then decDigitsAux cs (acc * 10 + (c.toNat - 48)) else none

/-- Modelled from the spec: `blaze_util::safe_strto32` (not under
`src/`), which parses the whole string as a decimal integer (optional
sign) and fails on anything else.  The spec describes the validated
numeric options simply as integers, so no width bound is imposed. -/
def safe_strto32 (s : String) : Option Int :=
  match s.data with
  | [] => none
  | '-' :: cs =>
      if cs.isEmpty then none
      else (decDigitsAux cs 0).map (fun n => -(n : Int))
  | '+' :: cs =>
      if cs.isEmpty then none
      else (decDigitsAux cs 0).map (fun n => (n : Int))
  | cs => (decDigitsAux cs 0).map (fun n => (n : Int))

/-- Value recognized by `GetUnaryOption`, tagged by where it came from.
In the C++ code the value is a `const char*` that either points into the
current token (after the `=`) or is the `next_arg` pointer itself; the
tag records exactly that pointer identity, which is what the final
`value == next_arg` comparison in `ProcessArg` observes. -/
inductive UnaryValue where
  | fromArg (s : String)
  | fromNextArg (s : String)
deriving DecidableEq, Repr

/-- Underlying string of a recognized unary value. -/
def UnaryValue.str : UnaryValue → String
  | .fromArg s => s
  | .fromNextArg s => s

/-- True when the value is the next token (pointer-equal to `next_arg`). -/
def UnaryValue.isNext : UnaryValue → Bool
  | .fromArg _ => false
  | .fromNextArg _ => true

/-- Modelled from the spec: `GetUnaryOption` (from `blaze_util`, not
under `src/`): the value of a unary option comes from an `=`-delimited
suffix of the same token, or, when the token equals the key exactly, from
the next token when one exists. -/
def GetUnaryOption (arg : String) (next_arg : Option String) (key : String) :
    Option UnaryValue :=
  if strStartsWith arg (key ++ "=") then
    some (.fromArg (strDropLen arg (key.length + 1)))
  else if arg = key then
    next_arg.map .fromNextArg
  else
    none

/-- Modelled from the spec: `GetNullaryOption` (from `blaze_util`, not
under `src/`): a nullary option is recognized when the token is exactly
the key. -/
def GetNullaryOption (arg key : String) : Bool :=
  arg == key

/-- Recognition test of the `--[no]master_blazerc` pair (the two
spellings share one branch in the source). -/
def masterBlazercMatch (arg : String) : Bool :=
  GetNullaryOption arg "--nomaster_blazerc" || GetNullaryOption arg "--master_blazerc"

/-- Recognition test of the `--[no]master_bazelrc` pair. -/
def masterBazelrcMatch (arg : String) : Bool :=
  GetNullaryOption arg "--nomaster_bazelrc" || GetNullaryOption arg "--master_bazelrc"

/-- Outcome of one `ProcessArg` call.  Both constructors carry the option
store after the call (the C++ method mutates `this` in place). -/
inductive ParseResult where
  | ok (opts : StartupOptions) (is_space_separated : Bool)
  | err (code : ExitCode) (opts : StartupOptions) (error : String)
deriving DecidableEq, Repr

/-- The option store carried by a parse outcome. -/
def ParseResult.opts : ParseResult → StartupOptions
  | .ok o _ => o
  | .err _ o _ => o

/-- Whether the outcome is a success. -/
def ParseResult.isOk : ParseResult → Bool
  | .ok _ _ => true
  | .err _ _ _ => false

/-- Core of `StartupOptions::ProcessArg`, after the conversion of
`next_argstr` to the possibly-NULL `next_arg` pointer.  The branch chain
follows the source line by line; `ma` stands for the external
`MakeAbsolute` collaborator.  The final `is_space_separated` assignment
`(value == next_arg) && (value != NULL)` is translated per branch using
the pointer-identity tag of the matched value: branches that never set
`value` (nullary options, `-x`) yield `false`. -/
def ProcessArgCore (ma : String → String) (opts : StartupOptions)
    (arg : String) (next_arg : Option String) (rcfile : String) : ParseResult :=
  match GetUnaryOption arg next_arg "--output_base" with
  | some v => .ok { opts with
      output_base := ma v.str,
      option_sources := mapSet opts.option_sources "output_base" rcfile } v.isNext
  | none =>
  match GetUnaryOption arg next_arg "--install_base" with
  | some v => .ok { opts with
      install_base := ma v.str,
      option_sources := mapSet opts.option_sources "install_base" rcfile } v.isNext
  | none =>
  match GetUnaryOption arg next_arg "--output_user_root" with
  | some v => .ok { opts with
      output_user_root := ma v.str,
      option_sources := mapSet opts.option_sources "output_user_root" rcfile } v.isNext
  | none =>
  match GetNullaryOption arg "--deep_execroot" with
  | true =>
    .ok { opts with
      deep_execroot := true,
      option_sources := mapSet opts.option_sources "deep_execroot" rcfile } false
  | false =>
  match GetNullaryOption arg "--nodeep_execroot" with
  | true =>
    .ok { opts with
      deep_execroot := false,
      option_sources := mapSet opts.option_sources "deep_execroot" rcfile } false
  | false =>
  match GetNullaryOption arg "--noblock_for_lock" with
  | true =>
    .ok { opts with
      block_for_lock := false,
      option_sources := mapSet opts.option_sources "block_for_lock" rcfile } false
  | false =>
  match GetNullaryOption arg "--host_jvm_debug" with
  | true =>
    .ok { opts with
      host_jvm_debug := true,
      option_sources := mapSet opts.option_sources "host_jvm_debug" rcfile } false
  | false =>
  match GetUnaryOption arg next_arg "--host_jvm_profile" with
  | some v => .ok { opts with
      host_jvm_profile := v.str,
      option_sources := mapSet opts.option_sources "host_jvm_profile" rcfile } v.isNext
  | none =>
  match GetUnaryOption arg next_arg "--host_javabase" with
  | some v => .ok { opts with
      host_javabase := ma v.str,
      option_sources := mapSet opts.option_sources "host_javabase" rcfile } v.isNext
  | none =>
  match GetUnaryOption arg next_arg "--host_jvm_args" with
  | some v => .ok { opts with
      host_jvm_args := opts.host_jvm_args ++ [v.str],
      option_sources := mapSet opts.option_sources "host_jvm_args" rcfile } v.isNext
  | none =>
  match GetUnaryOption arg next_arg "--bazelrc" with
  | some v =>
      if rcfile ≠ "" then
        .err .BAD_ARGV opts "Can\x27t specify --bazelrc in the .bazelrc file."
      else
        .ok opts v.isNext
  | none =>
  match GetUnaryOption arg next_arg "--blazerc" with
  | some v =>
      if rcfile ≠ "" then
        .err .BAD_ARGV opts "Can\x27t specify --blazerc in the .blazerc file."
      else
        .ok opts v.isNext
  | none =>
  match masterBlazercMatch arg with
  | true =>
    if rcfile ≠ "" then
      .err .BAD_ARGV opts "Can\x27t specify --[no]master_blazerc in .blazerc file."
    else
      .ok { opts with
      option_sources := mapSet opts.option_sources "blazerc" rcfile } false
  | false =>
  match masterBazelrcMatch arg with
  | true =>
    if rcfile ≠ "" then
      .err .BAD_ARGV opts "Can\x27t specify --[no]master_bazelrc in .bazelrc file."
    else
      .ok { opts with
      option_sources := mapSet opts.option_sources "blazerc" rcfile } false
  | false =>
  match GetNullaryOption arg "--batch" with
  | true =>
    .ok { opts with
      batch := true,
      option_sources := mapSet opts.option_sources "batch" rcfile } false
  | false =>
  match GetNullaryOption arg "--nobatch" with
  | true =>
    .ok { opts with
      batch := false,
      option_sources := mapSet opts.option_sources "batch" rcfile } false
  | false =>
  match GetNullaryOption arg "--batch_cpu_scheduling" with
  | true =>
    .ok { opts with
      batch_cpu_scheduling := true,
      option_sources := mapSet opts.option_sources "batch_cpu_scheduling" rcfile } false
  | false =>
  match GetNullaryOption arg "--nobatch_cpu_scheduling" with
  | true =>
    .ok { opts with
      batch_cpu_scheduling := false,
      option_sources := mapSet opts.option_sources "batch_cpu_scheduling" rcfile } false
  | false =>
  match GetNullaryOption arg "--allow_configurable_attributes" with
  | true =>
    .ok { opts with
      allow_configurable_attributes := true,
      option_sources := mapSet opts.option_sources "allow_configurable_attributes" rcfile } false
  | false =>
  match GetNullaryOption arg "--noallow_configurable_attributes" with
  | true =>
    .ok { opts with
      allow_configurable_attributes := false,
      option_sources := mapSet opts.option_sources "allow_configurable_attributes" rcfile } false
  | false =>
  match GetNullaryOption arg "--fatal_event_bus_exceptions" with
  | true =>
    .ok { opts with
      fatal_event_bus_exceptions := true,
      option_sources := mapSet opts.option_sources "fatal_event_bus_exceptions" rcfile } false
  | false =>
  match GetNullaryOption arg "--nofatal_event_bus_exceptions" with
  | true =>
    .ok { opts with
      fatal_event_bus_exceptions := false,
      option_sources := mapSet opts.option_sources "fatal_event_bus_exceptions" rcfile } false
  | false =>
  match GetUnaryOption arg next_arg "--io_nice_level" with
  | some v =>
      match safe_strto32 v.str with
      | some n =>
          if n > 7 then
            .err .BAD_ARGV { opts with
      io_nice_level := n }
              ("Invalid argument to --io_nice_level: \x27" ++ v.str ++
               "\x27. Must not exceed 7.")
          else
            .ok { opts with
      io_nice_level := n,
              option_sources := mapSet opts.option_sources "io_nice_level" rcfile } v.isNext
      | none =>
          .err .BAD_ARGV opts
            ("Invalid argument to --io_nice_level: \x27" ++ v.str ++
             "\x27. Must not exceed 7.")
  | none =>
  match GetUnaryOption arg next_arg "--max_idle_secs" with
  | some v =>
      match safe_strto32 v.str with
      | some n =>
          if n < 0 then
            .err .BAD_ARGV { opts with
      max_idle_secs := n }
              ("Invalid argument to --max_idle_secs: \x27" ++ v.str ++ "\x27.")
          else
            .ok { opts with
      max_idle_secs := n,
              option_sources := mapSet opts.option_sources "max_idle_secs" rcfile } v.isNext
      | none =>
          .err .BAD_ARGV opts
            ("Invalid argument to --max_idle_secs: \x27" ++ v.str ++ "\x27.")
  | none =>
  match GetNullaryOption arg "-x" with
  | true =>
    .ok opts false
  | false =>
  match GetNullaryOption arg "--experimental_oom_more_eagerly" with
  | true =>
    .ok { opts with
      oom_more_eagerly := true,
      option_sources := mapSet opts.option_sources "experimental_oom_more_eagerly" rcfile } false
  | false =>
  match GetNullaryOption arg "--noexperimental_oom_more_eagerly" with
  | true =>
    .ok { opts with
      oom_more_eagerly := false,
      option_sources := mapSet opts.option_sources "experimental_oom_more_eagerly" rcfile } false
  | false =>
  match GetUnaryOption arg next_arg "--experimental_oom_more_eagerly_threshold" with
  | some v =>
      match safe_strto32 v.str with
      | some n =>
          if n < 0 then
            .err .BAD_ARGV { opts with
      oom_more_eagerly_threshold := n }
              ("Invalid argument to --experimental_oom_more_eagerly_threshold: \x27" ++
               v.str ++ "\x27.")
          else
            .ok { opts with
      oom_more_eagerly_threshold := n,
              option_sources :=
                mapSet opts.option_sources "experimental_oom_more_eagerly_threshold" rcfile }
              v.isNext
      | none =>
          .err .BAD_ARGV opts
            ("Invalid argument to --experimental_oom_more_eagerly_threshold: \x27" ++
             v.str ++ "\x27.")
  | none =>
  match GetNullaryOption arg "--watchfs" with
  | true =>
    .ok { opts with
      watchfs := true,
      option_sources := mapSet opts.option_sources "watchfs" rcfile } false
  | false =>
  match GetNullaryOption arg "--nowatchfs" with
  | true =>
    .ok { opts with
      watchfs := false,
      option_sources := mapSet opts.option_sources "watchfs" rcfile } false
  | false =>
  match GetUnaryOption arg next_arg "--command_port" with
  | some v =>
      match safe_strto32 v.str with
      | some n =>
          if n < -1 || n > 65535 then
            .err .BAD_ARGV { opts with
      command_port := n }
              ("Invalid argument to --command_port: \x27" ++ v.str ++
               "\x27. Must be a valid port number or -1 to disable the gRPC server.\n")
          else
            .ok { opts with
      command_port := n,
              option_sources := mapSet opts.option_sources "webstatusserver" rcfile } v.isNext
      | none =>
          .err .BAD_ARGV opts
            ("Invalid argument to --command_port: \x27" ++ v.str ++
             "\x27. Must be a valid port number or -1 to disable the gRPC server.\n")
  | none =>
  match GetUnaryOption arg next_arg "--invocation_policy" with
  | some v =>
      match opts.invocation_policy with
      | none =>
          .ok { opts with
      invocation_policy := some v.str,
            option_sources := mapSet opts.option_sources "invocation_policy" rcfile } v.isNext
      | some _ =>
          .err .BAD_ARGV opts
            "The startup flag --invocation_policy cannot be specified multiple times."
  | none =>
    .err .BAD_ARGV opts
      ("Unknown " ++ opts.product_name ++ " startup option: \x27" ++ arg ++
       "\x27.\n  For more info, run \x27" ++ opts.product_name ++
       " help startup_options\x27.")

/-- `StartupOptions::ProcessArg`.  The base-class `ProcessArgExtra`
(recognizing nothing) is inlined in the final branch of the core.  An
empty `next_argstr` becomes the NULL `next_arg` pointer. -/
def ProcessArg (ma : String → String) (opts : StartupOptions)
    (argstr next_argstr rcfile : String) : ParseResult :=
  ProcessArgCore ma opts argstr
    (if next_argstr = "" then none else some next_argstr) rcfile

/-- `StartupOptions::Init`, with the environment and the external
collaborators as parameters: `testTmpdir` is the value of `TEST_TMPDIR`
when set, `ma` is `MakeAbsolute`, `getOutputRoot` the platform output
root, `getUserName` the current user.  Fields the C++ constructor leaves
default-constructed are the empty string, empty list, or NULL. -/
def Init (testTmpdir : Option String) (ma : String → String)
    (getOutputRoot : String) (getUserName : String) : StartupOptions :=
  let output_root :=
    match testTmpdir with
    | some d => ma d
    | none => getOutputRoot
  { product_name := "Bazel"
    output_root := output_root
    output_user_root := JoinPath output_root ("_" ++ "bazel" ++ "_" ++ getUserName)
    output_base := ""
    install_base := ""
    deep_execroot := true
    block_for_lock := true
    host_jvm_debug := false
    host_jvm_profile := ""
    host_javabase := ""
    host_jvm_args := []
    batch := false
    batch_cpu_scheduling := false
    allow_configurable_attributes := false
    fatal_event_bus_exceptions := false
    io_nice_level := -1
    max_idle_secs := if testTmpdir.isSome then 15 else 3 * 3600
    oom_more_eagerly_threshold := 100
    command_port := 0
    oom_more_eagerly := false
    watchfs := false
    invocation_policy := none
    option_sources := [] }

/-- Access modes used by `GetJvm`: executable (`X_OK`) and readable
(`R_OK`). -/
inductive AccessMode where
  | X
  | R
deriving DecidableEq, Repr

/-- Outcome of the external `access(2)` call: success, failure with
`errno == ENOENT`, or failure with another errno (carrying the
`strerror` text). -/
inductive AccessOutcome where
  | ok
  | enoent
  | otherErr (msg : String)
deriving DecidableEq, Repr

/-- Result of `StartupOptions::GetJvm`: either the launcher path, or
process termination with the given exit status after printing the given
diagnostic to stderr. -/
inductive JvmResult where
  | okPath (path : String)
  | fatal (status : Nat) (msg : String)
deriving DecidableEq, Repr

/-- `StartupOptions::GetHostJavabase`: the explicit override when one was
supplied, otherwise the external default, memoized into the store. -/
def GetHostJavabase (defaultJavabase : String) (opts : StartupOptions) :
    String × StartupOptions :=
  if opts.host_javabase = "" then
    (defaultJavabase, { opts with host_javabase := defaultJavabase })
  else
    (opts.host_javabase, opts)

/-- `StartupOptions::GetJvm`, with `access(2)` as an explicit function
parameter.  The two `exit(1)` paths become `JvmResult.fatal 1` carrying
the printed diagnostic. -/
def GetJvm (access : String → AccessMode → AccessOutcome)
    (defaultJavabase : String) (opts : StartupOptions) : JvmResult :=
  let javabase := (GetHostJavabase defaultJavabase opts).fst
  let java_program := javabase ++ "/bin/java"
  match access java_program .X with
  | .enoent =>
      .fatal 1 ("Couldn\x27t find java at \x27" ++ java_program ++ "\x27.")
  | .otherErr e =>
      .fatal 1 ("Couldn\x27t access " ++ java_program ++ ": " ++ e)
  | .ok =>
      let jdk_rt_jar := javabase ++ "/jre/lib/rt.jar"
      let jre_rt_jar := javabase ++ "/lib/rt.jar"
      if access jdk_rt_jar .R = .ok || access jre_rt_jar .R = .ok then
        .okPath java_program
      else
        .fatal 1 ("Problem with java installation: couldn\x27t find/access rt.jar in " ++
          javabase)

/-- The properties-file contents `AddJVMArguments` synthesizes for the
given output base. -/
def javalogContents (output_base : String) : String :=
  "handlers=java.util.logging.FileHandler\n" ++
  ".level=INFO\n" ++
  "java.util.logging.FileHandler.level=INFO\n" ++
  "java.util.logging.FileHandler.pattern=" ++ output_base ++ "/java.log\n" ++
  "java.util.logging.FileHandler.limit=50000\n" ++
  "java.util.logging.FileHandler.count=1\n" ++
  "java.util.logging.FileHandler.formatter=java.util.logging.SimpleFormatter\n"

/-- `StartupOptions::AddJVMArguments`, with the external `WriteFile`
collaborator as a parameter (`writeFileOk contents path` tells whether
the write succeeded).  On write failure only a warning is printed and the
flag is omitted; the method always returns `SUCCESS`.  The
`host_javabase` and `user_options` parameters are unused by this
implementation, as in the source. -/
def AddJVMArguments (writeFileOk : String → String → Bool)
    (opts : StartupOptions) (host_javabase : String) (result : List String)
    (user_options : List String) : ExitCode × List String :=
  let propFile := opts.output_base ++ "/javalog.properties"
  if writeFileOk (javalogContents opts.output_base) propFile then
    (.SUCCESS, result ++ ["-Djava.util.logging.config.file=" ++ propFile])
  else
    (.SUCCESS, result)

/-- The provenance key each successful `ProcessArg` branch records, a
specification-side mirror of the branch chain used to state the
(corrected) provenance invariant: `none` for branches that record
nothing (`--bazelrc`, `--blazerc`, the deprecated `-x`, and the
unrecognized-token branch), `"blazerc"` for the four master-rc flags and
`"webstatusserver"` for `--command_port`, the option name itself
everywhere else. -/
def provKeyCore (arg : String) (next_arg : Option String) : Option String :=
  match GetUnaryOption arg next_arg "--output_base" with
  | some _ => some "output_base"
  | none =>
  match GetUnaryOption arg next_arg "--install_base" with
  | some _ => some "install_base"
  | none =>
  match GetUnaryOption arg next_arg "--output_user_root" with
  | some _ => some "output_user_root"
  | none =>
  match GetNullaryOption arg "--deep_execroot" with
  | true => some "deep_execroot"
  | false =>
  match GetNullaryOption arg "--nodeep_execroot" with
  | true => some "deep_execroot"
  | false =>
  match GetNullaryOption arg "--noblock_for_lock" with
  | true => some "block_for_lock"
  | false =>
  match GetNullaryOption arg "--host_jvm_debug" with
  | true => some "host_jvm_debug"
  | false =>
  match GetUnaryOption arg next_arg "--host_jvm_profile" with
  | some _ => some "host_jvm_profile"
  | none =>
  match GetUnaryOption arg next_arg "--host_javabase" with
  | some _ => some "host_javabase"
  | none =>
  match GetUnaryOption arg next_arg "--host_jvm_args" with
  | some _ => some "host_jvm_args"
  | none =>
  match GetUnaryOption arg next_arg "--bazelrc" with
  | some _ => none
  | none =>
  match GetUnaryOption arg next_arg "--blazerc" with
  | some _ => none
  | none =>
  match masterBlazercMatch arg with
  | true =>
    some "blazerc"
  | false =>
  match masterBazelrcMatch arg with
  | true =>
    some "blazerc"
  | false =>
  match GetNullaryOption arg "--batch" with
  | true => some "batch"
  | false =>
  match GetNullaryOption arg "--nobatch" with
  | true => some "batch"
  | false =>
  match GetNullaryOption arg "--batch_cpu_scheduling" with
  | true => some "batch_cpu_scheduling"
  | false =>
  match GetNullaryOption arg "--nobatch_cpu_scheduling" with
  | true => some "batch_cpu_scheduling"
  | false =>
  match GetNullaryOption arg "--allow_configurable_attributes" with
  | true =>
    some "allow_configurable_attributes"
  | false =>
  match GetNullaryOption arg "--noallow_configurable_attributes" with
  | true =>
    some "allow_configurable_attributes"
  | false =>
  match GetNullaryOption arg "--fatal_event_bus_exceptions" with
  | true =>
    some "fatal_event_bus_exceptions"
  | false =>
  match GetNullaryOption arg "--nofatal_event_bus_exceptions" with
  | true =>
    some "fatal_event_bus_exceptions"
  | false =>
  match GetUnaryOption arg next_arg "--io_nice_level" with
  | some _ => some "io_nice_level"
  | none =>
  match GetUnaryOption arg next_arg "--max_idle_secs" with
  | some _ => some "max_idle_secs"
  | none =>
  match GetNullaryOption arg "-x" with
  | true => none
  | false =>
  match GetNullaryOption arg "--experimental_oom_more_eagerly" with
  | true =>
    some "experimental_oom_more_eagerly"
  | false =>
  match GetNullaryOption arg "--noexperimental_oom_more_eagerly" with
  | true =>
    some "experimental_oom_more_eagerly"
  | false =>
  match GetUnaryOption arg next_arg "--experimental_oom_more_eagerly_threshold" with
  | some _ => some "experimental_oom_more_eagerly_threshold"
  | none =>
  match GetNullaryOption arg "--watchfs" with
  | true => some "watchfs"
  | false =>
  match GetNullaryOption arg "--nowatchfs" with
  | true => some "watchfs"
  | false =>
  match GetUnaryOption arg next_arg "--command_port" with
  | some _ => some "webstatusserver"
  | none =>
  match GetUnaryOption arg next_arg "--invocation_policy" with
  | some _ => some "invocation_policy"
  | none => none

/-- The unary startup option keys, in chain order: exactly those tokens
whose value may be consumed from the next token. -/
def unaryStartupKeys : List String :=
  ["--output_base", "--install_base", "--output_user_root",
   "--host_jvm_profile", "--host_javabase", "--host_jvm_args",
   "--bazelrc", "--blazerc", "--io_nice_level", "--max_idle_secs",
   "--experimental_oom_more_eagerly_threshold", "--command_port",
   "--invocation_policy"]

/-- The nullary startup tokens recognized by the chain (including the
deprecated `-x`). -/
def nullaryStartupTokens : List String :=
  ["--deep_execroot", "--nodeep_execroot", "--noblock_for_lock",
   "--host_jvm_debug", "--nomaster_blazerc", "--master_blazerc",
   "--nomaster_bazelrc", "--master_bazelrc", "--batch", "--nobatch",
   "--batch_cpu_scheduling", "--nobatch_cpu_scheduling",
   "--allow_configurable_attributes", "--noallow_configurable_attributes",
   "--fatal_event_bus_exceptions", "--nofatal_event_bus_exceptions",
   "-x", "--experimental_oom_more_eagerly", "--noexperimental_oom_more_eagerly",
   "--watchfs", "--nowatchfs"]

/-- A concrete option store used by witnesses and counterexamples: the
store `Init` builds outside test mode with identity path absolutization,
output root `/root` and user `user`. -/
def sampleOpts : StartupOptions := Init none id "/root" "user"

/-! ### Lemmas about the provenance map and the recognizers -/

theorem mapGet_mapSet_self (m : List (String × String)) (k v : String) :
    mapGet (mapSet m k v) k = some v := by
  induction m with
  | nil => simp [mapSet, mapGet]
  | cons p rest ih =>
      obtain ⟨k₀, v₀⟩ := p
      by_cases hk : k₀ = k
      · simp [mapSet, mapGet, hk]
      · simp [mapSet, mapGet, hk, ih]

theorem processArg_eq_core (ma : String → String) (opts : StartupOptions)
    (a v rc : String) (hv : v ≠ "") :
    ProcessArg ma opts a v rc = ProcessArgCore ma opts a (some v) rc := by
  unfold ProcessArg
  rw [if_neg hv]

theorem getUnary_isNext_true {arg : String} {na : Option String} {k : String}
    {v : UnaryValue} (heq : GetUnaryOption arg na k = some v)
    (h : v.isNext = true) : arg = k ∧ na ≠ none := by
  unfold GetUnaryOption at heq
  split at heq
  · cases heq
    simp [UnaryValue.isNext] at h
  · split at heq
    · rename_i hak
      cases na with
      | none => simp at heq
      | some s =>
          cases heq
          exact ⟨hak, by simp⟩
    · simp at heq

theorem getUnary_isNext_false {arg : String} {na : Option String} {k : String}
    {v : UnaryValue} (heq : GetUnaryOption arg na k = some v)
    (h : v.isNext = false) : strStartsWith arg (k ++ "=") = true := by
  unfold GetUnaryOption at heq
  split at heq
  · assumption
  · split at heq
    · cases na with
      | none => simp at heq
      | some s =>
          cases heq
          simp [UnaryValue.isNext] at h
    · simp at heq

theorem mem_keys_not_eq_form :
    ∀ a ∈ unaryStartupKeys, ∀ k ∈ unaryStartupKeys,
      strStartsWith a (k ++ "=") = false := by decide

theorem unaryBranchIsNext {arg : String} {na : Option String} {k : String}
    {v : UnaryValue} (heq : GetUnaryOption arg na k = some v)
    (hk : k ∈ unaryStartupKeys) :
    (v.isNext = true) ↔ (arg ∈ unaryStartupKeys ∧ na ≠ none) := by
  constructor
  · intro h
    obtain ⟨rfl, hna⟩ := getUnary_isNext_true heq h
    exact ⟨hk, hna⟩
  · rintro ⟨hm, hna⟩
    cases hn : v.isNext with
    | false =>
        have hpre := getUnary_isNext_false heq hn
        rw [mem_keys_not_eq_form arg hm k hk] at hpre
        exact absurd hpre (by simp)
    | true => rfl

/-! ### Behaviour of the full branch chain on arbitrary tokens -/

theorem processArgCore_err_inversion (ma : String → String) (opts : StartupOptions)
    (arg : String) (na : Option String) (rc : String)
    (c : ExitCode) (o' : StartupOptions) (e : String)
    (h : ProcessArgCore ma opts arg na rc = .err c o' e) :
    c = .BAD_ARGV ∧
    o'.option_sources = opts.option_sources ∧
    (o' = opts ∨
     (∃ v n, GetUnaryOption arg na "--io_nice_level" = some v ∧
        safe_strto32 v.str = some n ∧ n > 7 ∧
        o' = { opts with io_nice_level := n }) ∨
     (∃ v n, GetUnaryOption arg na "--max_idle_secs" = some v ∧
        safe_strto32 v.str = some n ∧ n < 0 ∧
        o' = { opts with max_idle_secs := n }) ∨
     (∃ v n, GetUnaryOption arg na "--experimental_oom_more_eagerly_threshold" = some v ∧
        safe_strto32 v.str = some n ∧ n < 0 ∧
        o' = { opts with oom_more_eagerly_threshold := n }) ∨
     (∃ v n, GetUnaryOption arg na "--command_port" = some v ∧
        safe_strto32 v.str = some n ∧ (n < -1 ∨ n > 65535) ∧
        o' = { opts with command_port := n })) := by
  unfold ProcessArgCore at h
  repeat' split at h
  all_goals cases h
  all_goals (try exact ⟨rfl, rfl, .inl rfl⟩)
  · exact ⟨rfl, rfl, .inr (.inl ⟨_, _, ‹_›, ‹_›, ‹_›, rfl⟩)⟩
  · exact ⟨rfl, rfl, .inr (.inr (.inl ⟨_, _, ‹_›, ‹_›, ‹_›, rfl⟩))⟩
  · exact ⟨rfl, rfl, .inr (.inr (.inr (.inl ⟨_, _, ‹_›, ‹_›, ‹_›, rfl⟩)))⟩
  · refine ⟨rfl, rfl, .inr (.inr (.inr (.inr ⟨_, _, ‹_›, ‹_›, ?_, rfl⟩)))⟩
    simp_all

theorem processArgCore_policy_mono (ma : String → String) (opts : StartupOptions)
    (arg : String) (na : Option String) (rc : String) (p : String)
    (hp : opts.invocation_policy = some p) :
    (ProcessArgCore ma opts arg na rc).opts.invocation_policy = some p := by
  unfold ProcessArgCore
  repeat' split
  all_goals simp_all [ParseResult.opts]

theorem processArgCore_isNext (ma : String → String) (opts : StartupOptions)
    (arg : String) (na : Option String) (rc : String)
    (opts' : StartupOptions) (b : Bool)
    (h : ProcessArgCore ma opts arg na rc = .ok opts' b) :
    b = true ↔ (arg ∈ unaryStartupKeys ∧ na ≠ none) := by
  unfold ProcessArgCore at h
  repeat' split at h
  all_goals cases h
  all_goals (try (exact unaryBranchIsNext (by assumption) (by decide)))
  all_goals (try simp_all [GetNullaryOption, unaryStartupKeys])
  all_goals (simp_all [masterBlazercMatch, masterBazelrcMatch, GetNullaryOption];
             rcases ‹_ ∨ _› with rfl | rfl <;> simp +decide [unaryStartupKeys])

/-! ### Branch reduction laws for concrete tokens -/

theorem redIoNiceLevel (ma : String → String) (opts : StartupOptions) (v rc : String) :
    ProcessArgCore ma opts "--io_nice_level" (some v) rc =
      (match safe_strto32 v with
       | some n =>
           if n > 7 then
             .err .BAD_ARGV { opts with io_nice_level := n }
               ("Invalid argument to --io_nice_level: \x27" ++ v ++
                "\x27. Must not exceed 7.")
           else
             .ok { opts with
               io_nice_level := n,
               option_sources := mapSet opts.option_sources "io_nice_level" rc } true
       | none =>
           .err .BAD_ARGV opts
             ("Invalid argument to --io_nice_level: \x27" ++ v ++
              "\x27. Must not exceed 7.")) := rfl

theorem redMaxIdleSecs (ma : String → String) (opts : StartupOptions) (v rc : String) :
    ProcessArgCore ma opts "--max_idle_secs" (some v) rc =
      (match safe_strto32 v with
       | some n =>
           if n < 0 then
             .err .BAD_ARGV { opts with max_idle_secs := n }
               ("Invalid argument to --max_idle_secs: \x27" ++ v ++ "\x27.")
           else
             .ok { opts with
               max_idle_secs := n,
               option_sources := mapSet opts.option_sources "max_idle_secs" rc } true
       | none =>
           .err .BAD_ARGV opts
             ("Invalid argument to --max_idle_secs: \x27" ++ v ++ "\x27.")) := rfl

theorem redOomThreshold (ma : String → String) (opts : StartupOptions) (v rc : String) :
    ProcessArgCore ma opts "--experimental_oom_more_eagerly_threshold" (some v) rc =
      (match safe_strto32 v with
       | some n =>
           if n < 0 then
             .err .BAD_ARGV { opts with oom_more_eagerly_threshold := n }
               ("Invalid argument to --experimental_oom_more_eagerly_threshold: \x27" ++
                v ++ "\x27.")
           else
             .ok { opts with
               oom_more_eagerly_threshold := n,
               option_sources :=
                 mapSet opts.option_sources "experimental_oom_more_eagerly_threshold" rc } true
       | none =>
           .err .BAD_ARGV opts
             ("Invalid argument to --experimental_oom_more_eagerly_threshold: \x27" ++
              v ++ "\x27.")) := rfl

theorem redCommandPort (ma : String → String) (opts : StartupOptions) (v rc : String) :
    ProcessArgCore ma opts "--command_port" (some v) rc =
      (match safe_strto32 v with
       | some n =>
           if n < -1 || n > 65535 then
             .err .BAD_ARGV { opts with command_port := n }
               ("Invalid argument to --command_port: \x27" ++ v ++
                "\x27. Must be a valid port number or -1 to disable the gRPC server.\n")
           else
             .ok { opts with
               command_port := n,
               option_sources := mapSet opts.option_sources "webstatusserver" rc } true
       | none =>
           .err .BAD_ARGV opts
             ("Invalid argument to --command_port: \x27" ++ v ++
              "\x27. Must be a valid port number or -1 to disable the gRPC server.\n")) := rfl

theorem redInvocationPolicy (ma : String → String) (opts : StartupOptions) (v rc : String) :
    ProcessArgCore ma opts "--invocation_policy" (some v) rc =
      (match opts.invocation_policy with
       | none => .ok { opts with
           invocation_policy := some v,
           option_sources := mapSet opts.option_sources "invocation_policy" rc } true
       | some _ => .err .BAD_ARGV opts
           "The startup flag --invocation_policy cannot be specified multiple times.") := rfl

theorem redBazelrc (ma : String → String) (opts : StartupOptions) (v rc : String) :
    ProcessArgCore ma opts "--bazelrc" (some v) rc =
      (if rc ≠ "" then .err .BAD_ARGV opts "Can\x27t specify --bazelrc in the .bazelrc file."
       else .ok opts true) := rfl

theorem redBlazerc (ma : String → String) (opts : StartupOptions) (v rc : String) :
    ProcessArgCore ma opts "--blazerc" (some v) rc =
      (if rc ≠ "" then .err .BAD_ARGV opts "Can\x27t specify --blazerc in the .blazerc file."
       else .ok opts true) := rfl

theorem redMasterBlazerc (ma : String → String) (opts : StartupOptions)
    (na : Option String) (rc : String) :
    ProcessArgCore ma opts "--master_blazerc" na rc =
      (if rc ≠ "" then .err .BAD_ARGV opts "Can\x27t specify --[no]master_blazerc in .blazerc file."
       else .ok { opts with
         option_sources := mapSet opts.option_sources "blazerc" rc } false) := rfl

theorem redNomasterBlazerc (ma : String → String) (opts : StartupOptions)
    (na : Option String) (rc : String) :
    ProcessArgCore ma opts "--nomaster_blazerc" na rc =
      (if rc ≠ "" then .err .BAD_ARGV opts "Can\x27t specify --[no]master_blazerc in .blazerc file."
       else .ok { opts with
         option_sources := mapSet opts.option_sources "blazerc" rc } false) := rfl

theorem redMasterBazelrc (ma : String → String) (opts : StartupOptions)
    (na : Option String) (rc : String) :
    ProcessArgCore ma opts "--master_bazelrc" na rc =
      (if rc ≠ "" then .err .BAD_ARGV opts "Can\x27t specify --[no]master_bazelrc in .bazelrc file."
       else .ok { opts with
         option_sources := mapSet opts.option_sources "blazerc" rc } false) := rfl

theorem redNomasterBazelrc (ma : String → String) (opts : StartupOptions)
    (na : Option String) (rc : String) :
    ProcessArgCore ma opts "--nomaster_bazelrc" na rc =
      (if rc ≠ "" then .err .BAD_ARGV opts "Can\x27t specify --[no]master_bazelrc in .bazelrc file."
       else .ok { opts with
         option_sources := mapSet opts.option_sources "blazerc" rc } false) := rfl

/-! ### Per-flag validation behaviour of the numeric options -/

theorem ioNiceLevelSpec (ma : String → String) (opts : StartupOptions)
    (v rc : String) (hv : v ≠ "") :
    ((ProcessArg ma opts "--io_nice_level" v rc).isOk = true ↔
      (∃ n, safe_strto32 v = some n ∧ n ≤ 7)) ∧
    (∀ c o' e, ProcessArg ma opts "--io_nice_level" v rc = .err c o' e →
      c = .BAD_ARGV ∧ ∃ pre post, e = pre ++ v ++ post) := by
  rw [processArg_eq_core ma opts _ v rc hv, redIoNiceLevel]
  cases hs : safe_strto32 v with
  | none =>
      dsimp only
      refine ⟨by simp [ParseResult.isOk, hs], fun c o' e he => ?_⟩
      cases he
      exact ⟨rfl, "Invalid argument to --io_nice_level: \x27",
             "\x27. Must not exceed 7.", rfl⟩
  | some n =>
      dsimp only
      by_cases h7 : n > 7
      · rw [if_pos h7]
        refine ⟨by simp [ParseResult.isOk, hs]; omega, fun c o' e he => ?_⟩
        cases he
        exact ⟨rfl, "Invalid argument to --io_nice_level: \x27",
               "\x27. Must not exceed 7.", rfl⟩
      · rw [if_neg h7]
        exact ⟨by simp [ParseResult.isOk, hs]; omega,
               fun c o' e he => by cases he⟩

theorem maxIdleSecsSpec (ma : String → String) (opts : StartupOptions)
    (v rc : String) (hv : v ≠ "") :
    ((ProcessArg ma opts "--max_idle_secs" v rc).isOk = true ↔
      (∃ n, safe_strto32 v = some n ∧ 0 ≤ n)) ∧
    (∀ c o' e, ProcessArg ma opts "--max_idle_secs" v rc = .err c o' e →
      c = .BAD_ARGV ∧ ∃ pre post, e = pre ++ v ++ post) := by
  rw [processArg_eq_core ma opts _ v rc hv, redMaxIdleSecs]
  cases hs : safe_strto32 v with
  | none =>
      dsimp only
      refine ⟨by simp [ParseResult.isOk, hs], fun c o' e he => ?_⟩
      cases he
      exact ⟨rfl, "Invalid argument to --max_idle_secs: \x27", "\x27.", rfl⟩
  | some n =>
      dsimp only
      by_cases h0 : n < 0
      · rw [if_pos h0]
        refine ⟨by simp [ParseResult.isOk, hs]; omega, fun c o' e he => ?_⟩
        cases he
        exact ⟨rfl, "Invalid argument to --max_idle_secs: \x27", "\x27.", rfl⟩
      · rw [if_neg h0]
        exact ⟨by simp [ParseResult.isOk, hs]; omega,
               fun c o' e he => by cases he⟩

theorem oomThresholdSpec (ma : String → String) (opts : StartupOptions)
    (v rc : String) (hv : v ≠ "") :
    ((ProcessArg ma opts "--experimental_oom_more_eagerly_threshold" v rc).isOk = true ↔
      (∃ n, safe_strto32 v = some n ∧ 0 ≤ n)) ∧
    (∀ c o' e, ProcessArg ma opts "--experimental_oom_more_eagerly_threshold" v rc = .err c o' e →
      c = .BAD_ARGV ∧ ∃ pre post, e = pre ++ v ++ post) := by
  rw [processArg_eq_core ma opts _ v rc hv, redOomThreshold]
  cases hs : safe_strto32 v with
  | none =>
      dsimp only
      refine ⟨by simp [ParseResult.isOk, hs], fun c o' e he => ?_⟩
      cases he
      exact ⟨rfl, "Invalid argument to --experimental_oom_more_eagerly_threshold: \x27",
             "\x27.", rfl⟩
  | some n =>
      dsimp only
      by_cases h0 : n < 0
      · rw [if_pos h0]
        refine ⟨by simp [ParseResult.isOk, hs]; omega, fun c o' e he => ?_⟩
        cases he
        exact ⟨rfl, "Invalid argument to --experimental_oom_more_eagerly_threshold: \x27",
               "\x27.", rfl⟩
      · rw [if_neg h0]
        exact ⟨by simp [ParseResult.isOk, hs]; omega,
               fun c o' e he => by cases he⟩

theorem commandPortSpec (ma : String → String) (opts : StartupOptions)
    (v rc : String) (hv : v ≠ "") :
    ((ProcessArg ma opts "--command_port" v rc).isOk = true ↔
      (∃ n, safe_strto32 v = some n ∧ -1 ≤ n ∧ n ≤ 65535)) ∧
    (∀ c o' e, ProcessArg ma opts "--command_port" v rc = .err c o' e →
      c = .BAD_ARGV ∧ ∃ pre post, e = pre ++ v ++ post) := by
  rw [processArg_eq_core ma opts _ v rc hv, redCommandPort]
  cases hs : safe_strto32 v with
  | none =>
      dsimp only
      refine ⟨by simp [ParseResult.isOk, hs], fun c o' e he => ?_⟩
      cases he
      exact ⟨rfl, "Invalid argument to --command_port: \x27",
             "\x27. Must be a valid port number or -1 to disable the gRPC server.\n", rfl⟩
  | some n =>
      dsimp only
      by_cases hr : n < -1 || n > 65535
      · rw [if_pos hr]
        simp only [Bool.or_eq_true, decide_eq_true_eq] at hr
        refine ⟨by simp [ParseResult.isOk, hs]; omega, fun c o' e he => ?_⟩
        cases he
        exact ⟨rfl, "Invalid argument to --command_port: \x27",
               "\x27. Must be a valid port number or -1 to disable the gRPC server.\n", rfl⟩
      · rw [if_neg hr]
        simp only [Bool.or_eq_true, decide_eq_true_eq, not_or] at hr
        exact ⟨by simp [ParseResult.isOk, hs]; omega,
               fun c o' e he => by cases he⟩

/-! ### The claims -/

/-- Claim C1 (amended): on every successful `ProcessArg` call the
provenance map is updated at exactly the branch-determined key with the
source label — the key is the option name for most branches, but
`webstatusserver` for `--command_port` and `blazerc` for the four
`--[no]master_*` flags — and the branches for `--bazelrc`, `--blazerc`
and the deprecated `-x` record nothing, leaving the map unchanged.
`provKeyCore` computes the branch-determined key. -/
theorem processArg_ok_provenance (ma : String → String) (opts : StartupOptions)
    (arg : String) (na : Option String) (rc : String)
    (opts' : StartupOptions) (b : Bool)
    (h : ProcessArgCore ma opts arg na rc = .ok opts' b) :
    (∀ k, provKeyCore arg na = some k →
        opts'.option_sources = mapSet opts.option_sources k rc ∧
        mapGet opts'.option_sources k = some rc) ∧
    (provKeyCore arg na = none → opts'.option_sources = opts.option_sources) := by
  unfold ProcessArgCore at h
  repeat' split at h
  all_goals cases h
  all_goals simp_all [provKeyCore, mapGet_mapSet_self]

/-- Claim C1 (witness): a `--batch` token from label `lbl` records
provenance `lbl` under `batch`. -/
theorem processArg_ok_provenance_witness :
    mapGet (mapSet sampleOpts.option_sources "batch" "lbl") "batch" = some "lbl" :=
  ((processArg_ok_provenance id sampleOpts "--batch" none "lbl"
      { sampleOpts with
        batch := true,
        option_sources := mapSet sampleOpts.option_sources "batch" "lbl" }
      false rfl).1 "batch" rfl).2

/-- Claim C1 (counterexample): a successful `--command_port` assignment
from an rc file records no provenance entry under the option name
`command_port`; the entry goes under `webstatusserver` instead, so the
claim as stated fails at this input. -/
theorem commandPort_provenance_key_cex :
    (ProcessArg id sampleOpts "--command_port=80" "" "myrc").isOk = true ∧
    mapGet (ProcessArg id sampleOpts "--command_port=80" "" "myrc").opts.option_sources
      "command_port" = none ∧
    mapGet (ProcessArg id sampleOpts "--command_port=80" "" "myrc").opts.option_sources
      "webstatusserver" = some "myrc" :=
  ⟨rfl, rfl, rfl⟩

/-- Claim C2 (amended): every failing `ProcessArg` call returns
`BAD_ARGV`, leaves the provenance map unchanged, and leaves the whole
option store unchanged — except that when the failing token is one of
the four validated numeric flags with a recognized value that parses to
an out-of-range integer `n`, exactly that flag's field (and nothing
else) already holds `n`, because the source parses into the field before
the range check.  On every other failing branch (unparsable value,
unknown option, rc-restricted flags, second `--invocation_policy`) the
store is exactly the one passed in. -/
theorem processArg_err_mutation_inversion (ma : String → String)
    (opts : StartupOptions) (argstr next_argstr rcfile : String)
    (c : ExitCode) (o' : StartupOptions) (e : String)
    (h : ProcessArg ma opts argstr next_argstr rcfile = .err c o' e) :
    c = .BAD_ARGV ∧
    o'.option_sources = opts.option_sources ∧
    (o' = opts ∨
     (∃ v n, GetUnaryOption argstr
          (if next_argstr = "" then none else some next_argstr) "--io_nice_level" = some v ∧
        safe_strto32 v.str = some n ∧ n > 7 ∧
        o' = { opts with io_nice_level := n }) ∨
     (∃ v n, GetUnaryOption argstr
          (if next_argstr = "" then none else some next_argstr) "--max_idle_secs" = some v ∧
        safe_strto32 v.str = some n ∧ n < 0 ∧
        o' = { opts with max_idle_secs := n }) ∨
     (∃ v n, GetUnaryOption argstr
          (if next_argstr = "" then none else some next_argstr)
          "--experimental_oom_more_eagerly_threshold" = some v ∧
        safe_strto32 v.str = some n ∧ n < 0 ∧
        o' = { opts with oom_more_eagerly_threshold := n }) ∨
     (∃ v n, GetUnaryOption argstr
          (if next_argstr = "" then none else some next_argstr) "--command_port" = some v ∧
        safe_strto32 v.str = some n ∧ (n < -1 ∨ n > 65535) ∧
        o' = { opts with command_port := n })) := by
  have hc : ProcessArgCore ma opts argstr
      (if next_argstr = "" then none else some next_argstr) rcfile = .err c o' e := h
  exact processArgCore_err_inversion ma opts argstr _ rcfile c o' e hc

/-- Claim C2 (witness): a failing call with an unparsable value returns
`BAD_ARGV` and leaves the provenance map unchanged. -/
theorem processArg_err_mutation_inversion_witness :
    ExitCode.BAD_ARGV = ExitCode.BAD_ARGV ∧
    (ProcessArg id sampleOpts "--io_nice_level" "abc" "").opts.option_sources =
      sampleOpts.option_sources :=
  ⟨(processArg_err_mutation_inversion id sampleOpts "--io_nice_level" "abc" ""
      .BAD_ARGV sampleOpts
      ("Invalid argument to --io_nice_level: \x27abc\x27. Must not exceed 7.") rfl).1,
   (processArg_err_mutation_inversion id sampleOpts "--io_nice_level" "abc" ""
      .BAD_ARGV sampleOpts
      ("Invalid argument to --io_nice_level: \x27abc\x27. Must not exceed 7.") rfl).2.1⟩

/-- Claim C2 (counterexample): `--io_nice_level=9` returns a failure, yet
the option store visible after the call holds `io_nice_level = 9` where
it held `-1` before — the mutation of the validated field is visible on
failure, so the claim as stated fails at this input. -/
theorem ioNiceLevel_err_mutation_cex :
    (ProcessArg id sampleOpts "--io_nice_level=9" "" "").isOk = false ∧
    (ProcessArg id sampleOpts "--io_nice_level=9" "" "").opts.io_nice_level = 9 ∧
    sampleOpts.io_nice_level = -1 :=
  ⟨rfl, rfl, rfl⟩

/-- Claim C3: a successful `ProcessArg` call reports
`is_space_separated = true` exactly when the token is one of the unary
option keys and a next token existed — that is, exactly when the value
was consumed from the next token rather than from an `=`-suffix or the
flag being nullary. -/
theorem processArg_is_space_separated_iff (ma : String → String)
    (opts : StartupOptions) (argstr next_argstr rcfile : String)
    (opts' : StartupOptions) (b : Bool)
    (h : ProcessArg ma opts argstr next_argstr rcfile = .ok opts' b) :
    b = true ↔ (argstr ∈ unaryStartupKeys ∧ next_argstr ≠ "") := by
  unfold ProcessArg at h
  by_cases hn : next_argstr = ""
  · rw [if_pos hn] at h
    have hi := processArgCore_isNext ma opts argstr none rcfile opts' b h
    simpa [hn] using hi
  · rw [if_neg hn] at h
    have hi := processArgCore_isNext ma opts argstr (some next_argstr) rcfile opts' b h
    simpa [hn] using hi

/-- Claim C3 (witness): `--output_base /x` consumes the next token. -/
theorem processArg_is_space_separated_iff_witness :
    (true = true) ↔ ("--output_base" ∈ unaryStartupKeys ∧ "/x" ≠ "") :=
  processArg_is_space_separated_iff id sampleOpts "--output_base" "/x" ""
    { sampleOpts with
      output_base := "/x",
      option_sources := mapSet sampleOpts.option_sources "output_base" "" }
    true rfl

/-- Claim C4: each validated numeric flag succeeds exactly when its value
parses as an integer inside the documented range (`--io_nice_level`:
at most 7; `--max_idle_secs`: at least 0;
`--experimental_oom_more_eagerly_threshold`: at least 0;
`--command_port`: in [-1, 65535]); otherwise the call fails with
`BAD_ARGV` and an error message embedding the offending value text. -/
theorem processArg_numeric_validation (ma : String → String)
    (opts : StartupOptions) (v rc : String) (hv : v ≠ "") :
    (((ProcessArg ma opts "--io_nice_level" v rc).isOk = true ↔
        (∃ n, safe_strto32 v = some n ∧ n ≤ 7)) ∧
     (∀ c o' e, ProcessArg ma opts "--io_nice_level" v rc = .err c o' e →
        c = .BAD_ARGV ∧ ∃ pre post, e = pre ++ v ++ post)) ∧
    (((ProcessArg ma opts "--max_idle_secs" v rc).isOk = true ↔
        (∃ n, safe_strto32 v = some n ∧ 0 ≤ n)) ∧
     (∀ c o' e, ProcessArg ma opts "--max_idle_secs" v rc = .err c o' e →
        c = .BAD_ARGV ∧ ∃ pre post, e = pre ++ v ++ post)) ∧
    (((ProcessArg ma opts "--experimental_oom_more_eagerly_threshold" v rc).isOk = true ↔
        (∃ n, safe_strto32 v = some n ∧ 0 ≤ n)) ∧
     (∀ c o' e,
        ProcessArg ma opts "--experimental_oom_more_eagerly_threshold" v rc = .err c o' e →
        c = .BAD_ARGV ∧ ∃ pre post, e = pre ++ v ++ post)) ∧
    (((ProcessArg ma opts "--command_port" v rc).isOk = true ↔
        (∃ n, safe_strto32 v = some n ∧ -1 ≤ n ∧ n ≤ 65535)) ∧
     (∀ c o' e, ProcessArg ma opts "--command_port" v rc = .err c o' e →
        c = .BAD_ARGV ∧ ∃ pre post, e = pre ++ v ++ post)) :=
  ⟨ioNiceLevelSpec ma opts v rc hv, maxIdleSecsSpec ma opts v rc hv,
   oomThresholdSpec ma opts v rc hv, commandPortSpec ma opts v rc hv⟩

/-- Claim C4 (witness): `--io_nice_level 7` succeeds and
`--io_nice_level 8` fails. -/
theorem processArg_numeric_validation_witness :
    (ProcessArg id sampleOpts "--io_nice_level" "7" "").isOk = true ∧
    (ProcessArg id sampleOpts "--io_nice_level" "8" "").isOk = false := by
  constructor
  · exact (processArg_numeric_validation id sampleOpts "7" "" (by decide)).1.1.mpr
      ⟨7, rfl, by norm_num⟩
  · have h := (processArg_numeric_validation id sampleOpts "8" "" (by decide)).1.1
    cases hb : (ProcessArg id sampleOpts "--io_nice_level" "8" "").isOk
    · rfl
    · obtain ⟨n, hn, hle⟩ := h.mp hb
      rw [show safe_strto32 "8" = some 8 from rfl] at hn
      cases hn
      exact absurd hle (by norm_num)

/-- Claim C5: `--invocation_policy` is a set-once option.  A first
occurrence (policy still unset) succeeds, stores the value and records
provenance; once the policy is set, no later call — whatever its token or
source label — resets it, and a later `--invocation_policy` token fails
with `BAD_ARGV` leaving the store untouched, regardless of whether the
two occurrences share a source label. -/
theorem invocation_policy_single_assignment (ma : String → String)
    (opts : StartupOptions) (v rc rc₂ p : String) (hv : v ≠ "") :
    (opts.invocation_policy = none →
        ProcessArg ma opts "--invocation_policy" v rc =
          .ok { opts with
            invocation_policy := some v,
            option_sources := mapSet opts.option_sources "invocation_policy" rc } true) ∧
    (opts.invocation_policy = some p →
        ProcessArg ma opts "--invocation_policy" v rc₂ =
          .err .BAD_ARGV opts
            "The startup flag --invocation_policy cannot be specified multiple times.") ∧
    (∀ arg na rcx, opts.invocation_policy = some p →
        (ProcessArgCore ma opts arg na rcx).opts.invocation_policy = some p) := by
  refine ⟨fun hp => ?_, fun hp => ?_,
          fun arg na rcx hp => processArgCore_policy_mono ma opts arg na rcx p hp⟩
  · rw [processArg_eq_core ma opts _ v rc hv, redInvocationPolicy, hp]
  · rw [processArg_eq_core ma opts _ v rc₂ hv, redInvocationPolicy, hp]

/-- Claim C5 (witness): the first assignment on a fresh store succeeds
and stores the policy. -/
theorem invocation_policy_single_assignment_witness :
    ProcessArg id sampleOpts "--invocation_policy" "pol" "cli" =
      .ok { sampleOpts with
        invocation_policy := some "pol",
        option_sources := mapSet sampleOpts.option_sources "invocation_policy" "cli" } true :=
  (invocation_policy_single_assignment id sampleOpts "pol" "cli" "x" "p"
    (by decide)).1 rfl

/-- Claim C6: the rc-file-restricted tokens (`--bazelrc`, `--blazerc`,
`--[no]master_bazelrc`, `--[no]master_blazerc`) fail with `BAD_ARGV` when
the source label is non-empty even with a syntactically valid value, and
are accepted when the label is empty (primary command line). -/
theorem rc_restricted_options (ma : String → String) (opts : StartupOptions)
    (v rc : String) (hv : v ≠ "") (hrc : rc ≠ "") :
    (ProcessArg ma opts "--bazelrc" v rc =
        .err .BAD_ARGV opts "Can\x27t specify --bazelrc in the .bazelrc file." ∧
     ProcessArg ma opts "--blazerc" v rc =
        .err .BAD_ARGV opts "Can\x27t specify --blazerc in the .blazerc file." ∧
     ProcessArg ma opts "--master_blazerc" v rc =
        .err .BAD_ARGV opts "Can\x27t specify --[no]master_blazerc in .blazerc file." ∧
     ProcessArg ma opts "--nomaster_blazerc" v rc =
        .err .BAD_ARGV opts "Can\x27t specify --[no]master_blazerc in .blazerc file." ∧
     ProcessArg ma opts "--master_bazelrc" v rc =
        .err .BAD_ARGV opts "Can\x27t specify --[no]master_bazelrc in .bazelrc file." ∧
     ProcessArg ma opts "--nomaster_bazelrc" v rc =
        .err .BAD_ARGV opts "Can\x27t specify --[no]master_bazelrc in .bazelrc file.") ∧
    (ProcessArg ma opts "--bazelrc" v "" = .ok opts true ∧
     ProcessArg ma opts "--blazerc" v "" = .ok opts true ∧
     ProcessArg ma opts "--master_blazerc" v "" =
        .ok { opts with option_sources := mapSet opts.option_sources "blazerc" "" } false ∧
     ProcessArg ma opts "--nomaster_blazerc" v "" =
        .ok { opts with option_sources := mapSet opts.option_sources "blazerc" "" } false ∧
     ProcessArg ma opts "--master_bazelrc" v "" =
        .ok { opts with option_sources := mapSet opts.option_sources "blazerc" "" } false ∧
     ProcessArg ma opts "--nomaster_bazelrc" v "" =
        .ok { opts with option_sources := mapSet opts.option_sources "blazerc" "" } false) := by
  refine ⟨⟨?_, ?_, ?_, ?_, ?_, ?_⟩, ⟨?_, ?_, ?_, ?_, ?_, ?_⟩⟩
  · rw [processArg_eq_core ma opts _ v rc hv, redBazelrc, if_pos hrc]
  · rw [processArg_eq_core ma opts _ v rc hv, redBlazerc, if_pos hrc]
  · rw [processArg_eq_core ma opts _ v rc hv, redMasterBlazerc, if_pos hrc]
  · rw [processArg_eq_core ma opts _ v rc hv, redNomasterBlazerc, if_pos hrc]
  · rw [processArg_eq_core ma opts _ v rc hv, redMasterBazelrc, if_pos hrc]
  · rw [processArg_eq_core ma opts _ v rc hv, redNomasterBazelrc, if_pos hrc]
  · rw [processArg_eq_core ma opts _ v "" hv]; rfl
  · rw [processArg_eq_core ma opts _ v "" hv]; rfl
  · rw [processArg_eq_core ma opts _ v "" hv]; rfl
  · rw [processArg_eq_core ma opts _ v "" hv]; rfl
  · rw [processArg_eq_core ma opts _ v "" hv]; rfl
  · rw [processArg_eq_core ma opts _ v "" hv]; rfl

/-- Claim C6 (witness): `--bazelrc` with a valid value is rejected inside
an rc file and accepted on the command line. -/
theorem rc_restricted_options_witness :
    ProcessArg id sampleOpts "--bazelrc" "f" "rcpath" =
      .err .BAD_ARGV sampleOpts "Can\x27t specify --bazelrc in the .bazelrc file." ∧
    ProcessArg id sampleOpts "--bazelrc" "f" "" = .ok sampleOpts true :=
  ⟨(rc_restricted_options id sampleOpts "f" "rcpath" (by decide) (by decide)).1.1,
   (rc_restricted_options id sampleOpts "f" "rcpath" (by decide) (by decide)).2.1⟩

/-- Claim C7: resolving the JVM is fatal on failure.  With the access
check failing with `ENOENT` the process exits with status 1 after a
`find` diagnostic naming the launcher path; with any other access error
it exits with status 1 reporting the OS error string; with the launcher
executable but `rt.jar` readable at neither known location the process
exits with status 1 naming the javabase; otherwise the launcher path is
returned. -/
theorem getJvm_spec (access : String → AccessMode → AccessOutcome)
    (defaultJavabase : String) (opts : StartupOptions) :
    (let javabase := (GetHostJavabase defaultJavabase opts).fst
     let java_program := javabase ++ "/bin/java"
     (access java_program .X = .enoent →
        GetJvm access defaultJavabase opts =
          .fatal 1 ("Couldn\x27t find java at \x27" ++ java_program ++ "\x27.")) ∧
     (∀ e, access java_program .X = .otherErr e →
        GetJvm access defaultJavabase opts =
          .fatal 1 ("Couldn\x27t access " ++ java_program ++ ": " ++ e)) ∧
     (access java_program .X = .ok →
      access (javabase ++ "/jre/lib/rt.jar") .R ≠ .ok →
      access (javabase ++ "/lib/rt.jar") .R ≠ .ok →
        GetJvm access defaultJavabase opts =
          .fatal 1 ("Problem with java installation: couldn\x27t find/access rt.jar in " ++
            javabase)) ∧
     (access java_program .X = .ok →
      (access (javabase ++ "/jre/lib/rt.jar") .R = .ok ∨
       access (javabase ++ "/lib/rt.jar") .R = .ok) →
        GetJvm access defaultJavabase opts = .okPath java_program)) := by
  dsimp only
  refine ⟨fun h1 => ?_, fun e h2 => ?_, fun h3 h4 h5 => ?_, fun h3 h6 => ?_⟩
  · simp [GetJvm, h1]
  · simp [GetJvm, h2]
  · simp [GetJvm, h3, h4, h5]
  · rcases h6 with h | h <;> simp [GetJvm, h3, h]

/-- Claim C7 (witness): with a missing launcher the resolver terminates
with status 1 and the `find` diagnostic. -/
theorem getJvm_spec_witness :
    GetJvm (fun _ _ => .enoent) "/jb" sampleOpts =
      .fatal 1 "Couldn\x27t find java at \x27/jb/bin/java\x27." :=
  (getJvm_spec (fun _ _ => .enoent) "/jb" sampleOpts).1 rfl

/-- Claim C8: `AddJVMArguments` always returns `SUCCESS`; the logging
flag is appended exactly when writing the synthesized properties file
under the output base succeeds, and on write failure the flag is simply
omitted (no fatal exit, no `BAD_ARGV`). -/
theorem addJVMArguments_spec (writeFileOk : String → String → Bool)
    (opts : StartupOptions) (host_javabase : String)
    (result user_options : List String) :
    (AddJVMArguments writeFileOk opts host_javabase result user_options).1 = .SUCCESS ∧
    (writeFileOk (javalogContents opts.output_base)
        (opts.output_base ++ "/javalog.properties") = true →
      (AddJVMArguments writeFileOk opts host_javabase result user_options).2 =
        result ++ ["-Djava.util.logging.config.file=" ++
          (opts.output_base ++ "/javalog.properties")]) ∧
    (writeFileOk (javalogContents opts.output_base)
        (opts.output_base ++ "/javalog.properties") = false →
      (AddJVMArguments writeFileOk opts host_javabase result user_options).2 = result) := by
  unfold AddJVMArguments
  cases hw : writeFileOk (javalogContents opts.output_base)
      (opts.output_base ++ "/javalog.properties") <;> simp [hw]

/-- Claim C8 (witness): with a failing writer the flag is omitted and the
call still succeeds. -/
theorem addJVMArguments_spec_witness :
    (AddJVMArguments (fun _ _ => false) sampleOpts "" [] []).2 = ([] : List String) :=
  (addJVMArguments_spec (fun _ _ => false) sampleOpts "" [] []).2.2 rfl

/-- Claim C9: with the test-temp-directory environment variable set the
constructed store defaults `max_idle_secs` to 15 and the output root to
the absolutized test directory; with it unset the defaults are 10800
seconds (3 hours) and the platform output root. -/
theorem init_defaults_spec (d : String) (ma : String → String)
    (getOutputRoot getUserName : String) :
    (Init (some d) ma getOutputRoot getUserName).max_idle_secs = 15 ∧
    (Init (some d) ma getOutputRoot getUserName).output_root = ma d ∧
    (Init none ma getOutputRoot getUserName).max_idle_secs = 10800 ∧
    (Init none ma getOutputRoot getUserName).output_root = getOutputRoot :=
  ⟨rfl, rfl, by norm_num [Init], rfl⟩

/-- Claim C10: on the primary command line (empty source label) a
recognized `--bazelrc` or `--blazerc` token — in space-separated or
`=`-delimited form — succeeds while leaving the whole option store,
provenance map included, unchanged; the value is discarded. -/
theorem bazelrc_noop_frame (ma : String → String) (opts : StartupOptions)
    (v w : String) (hv : v ≠ "") :
    ProcessArg ma opts "--bazelrc" v "" = .ok opts true ∧
    ProcessArg ma opts "--blazerc" v "" = .ok opts true ∧
    ProcessArg ma opts ("--bazelrc=" ++ w) "" "" = .ok opts false ∧
    ProcessArg ma opts ("--blazerc=" ++ w) "" "" = .ok opts false := by
  refine ⟨?_, ?_, rfl, rfl⟩
  · rw [processArg_eq_core ma opts _ v "" hv]; rfl
  · rw [processArg_eq_core ma opts _ v "" hv]; rfl

/-- Claim C10 (witness): `--bazelrc x` on the command line succeeds and
leaves the store untouched. -/
theorem bazelrc_noop_frame_witness :
    ProcessArg id sampleOpts "--bazelrc" "x" "" = .ok sampleOpts true :=
  (bazelrc_noop_frame id sampleOpts "x" "w" (by decide)).1

end blaze
